import Mathlib

/-!
Shallow embedding of `src/lambda_function.py` of nationalarchives/dr2-ip-lock-checker.

The Python module probes a fixed set of websites, reconciles each observed
HTTP outcome against a declared expectation, and decides which websites to
report.  We embed:

* `Website` (lines 16-23): the mutable per-target record;
* `get_response` (lines 26-31): the probe executor, which converts any raised
  transport exception into a returned value;
* `reconcile` / `verify_responses` (lines 34-56): the reconciliation loop.
  `reconcile` is the body of the `for` loop for a single website; the Python
  loop mutates the shared dict entries in place and a raised `ValueError`
  aborts the loop, leaving earlier mutations visible.  `verify_responses`
  therefore returns the final state of the mapping together with the
  optional raised error message;
* `get_websites_with_errors` (lines 82-94): the notification policy.  Its
  `print` diagnostic is modelled as an explicit console log threaded through;
* `print_error_message` / `print_success_message` / the reporting tail of
  `lambda_handler` (lines 59-79, 114-122), with console records reified as
  `LogRecord` values.

Python dicts preserve insertion order, so a mapping is an association list.
Exception objects are modelled by `Exc`: Python's
`type(x) == ConnectTimeoutError` check distinguishes exactly the
`ConnectTimeoutError` class, every other exception is `otherError` (carrying
its class name and message); Python's `str(e)` on an exception is `excStr`.
-/

namespace IpLockChecker

/-- A Python exception value, as far as `lambda_function.py` can observe it:
either exactly a `urllib3.exceptions.ConnectTimeoutError` (with its message),
or an exception of any other class (class name and message). -/
inductive Exc where
  | connectTimeoutError (msg : String)
  | otherError (cls : String) (msg : String)
  deriving DecidableEq

/-- Python `str(e)` for an exception: its message text. -/
def excStr : Exc → String
  | .connectTimeoutError msg => msg
  | .otherError _ msg => msg

/-- The runtime value stored in `Website.expected_response`
(`int | Exception` by annotation, but any value can be assigned, e.g. the
float `42.0` in the tests): an `int`, a `ConnectTimeoutError` instance, or
any other value (carried as its `str` rendering). -/
inductive ExpectedResponse where
  | intVal (n : Int)
  | excVal (e : Exc)
  | otherVal (repr : String)
  deriving DecidableEq

/-- Python `str(website.expected_response)`. -/
def strExpected : ExpectedResponse → String
  | .intVal n => toString n
  | .excVal e => excStr e
  | .otherVal r => r

/-- The `int | Exception` value named `http_status` in the source: either an
HTTP status code or a captured exception. -/
inductive HttpResult where
  | status (code : Int)
  | exc (e : Exc)
  deriving DecidableEq

/-- Python `str(http_status)`. -/
def strHttpResult : HttpResult → String
  | .status n => toString n
  | .exc e => excStr e

/-- Python `http_status == website.expected_response` in the `case int()`
branch: an int equals an int with the same value; an exception object never
equals an int, and the freshly raised exception is never the same object as
the expectation. -/
def httpStatusEq : HttpResult → ExpectedResponse → Bool
  | .status s, .intVal n => s == n
  | _, _ => false

/-- The `Website` record (lines 16-23).  `actual_response` is `None` until
probed and a string afterwards. -/
structure Website where
  name : String
  url : String
  expected_response : ExpectedResponse
  received_expected_response : Bool
  actual_response : Option String
  deriving DecidableEq

/-- The injected HTTP-request capability: given method, url, timeout seconds
and retries flag, either returns a response status or raises an exception. -/
def Request : Type := String → String → Nat → Bool → Except Exc Int

/-- `get_response` (lines 26-31): issues
`request("GET", url, timeout=urllib3.Timeout(5), retries=False)`; a returned
response yields its status, any raised exception is caught and returned. -/
def get_response (request : Request) (url : String) : HttpResult :=
  match request "GET" url 5 false with
  | .ok status => .status status
  | .error e => .exc e

/-- The body of the `for` loop of `verify_responses` (lines 36-54) for one
website: match on `expected_response`; `case ConnectTimeoutError()` probes
and compares `type(http_status) == ConnectTimeoutError` exactly (on a match,
`actual_response` is `str(website.expected_response)`, not the observed
error); `case int()` probes and compares for equality; `case _` raises
`ValueError(f"Unrecognised expected_response: \x7bexpected_response\x7d")`. -/
def reconcile (request : Request) (website : Website) : Except String Website :=
  match website.expected_response with
  | .excVal (.connectTimeoutError _) =>
      let http_status := get_response request website.url
      match http_status with
      | .exc (.connectTimeoutError _) =>
          .ok { website with
                  received_expected_response := true,
                  actual_response := some (strExpected website.expected_response) }
      | _ =>
          .ok { website with
                  received_expected_response := false,
                  actual_response := some (strHttpResult http_status) }
  | .intVal _ =>
      let http_status := get_response request website.url
      .ok { website with
              received_expected_response := httpStatusEq http_status website.expected_response,
              actual_response := some (strHttpResult http_status) }
  | _ => .error ("Unrecognised expected_response: " ++ strExpected website.expected_response)

/-- `verify_responses` (lines 34-56): iterates the mapping in insertion
order, mutating each entry in place; returns the final state of the mapping
together with `some msg` when a `ValueError` was raised (the entry that
raised and all later entries keep their pre-call state) and `none` when the
loop finished. -/
def verify_responses (request : Request) :
    List (String × Website) → List (String × Website) × Option String
  | [] => ([], none)
  | (name, website) :: rest =>
      match reconcile request website with
      | .ok website2 =>
          let result := verify_responses request rest
          ((name, website2) :: result.1, result.2)
      | .error msg => ((name, website) :: rest, some msg)

/-- The expectation kinds recognised by the `match` of `verify_responses`:
a `ConnectTimeoutError` instance or an `int`. -/
def recognised : ExpectedResponse → Bool
  | .excVal (.connectTimeoutError _) => true
  | .intVal _ => true
  | _ => false

/-- The diagnostic printed at line 90. -/
def timedOutDiagnostic : String :=
  "Preservica website timed out as expected but other test websites did not receive expected response."

/-- `get_websites_with_errors` (lines 82-94), with the `print` at line 90
modelled as appending to an explicit console log.  When the gating
(`preservica`) website received its expected response and the set of peers
with `received_expected_response == False` is non-empty, the source returns
`rest_of_the_tested_websites` — the whole peer mapping; when that set is
empty it returns the empty dict; otherwise it returns the singleton
`\x7bpreservica_website.name: preservica_website\x7d`. -/
def get_websites_with_errors (preservica_website : Website)
    (rest_of_the_tested_websites : List (String × Website)) (console : List String) :
    List (String × Website) × List String :=
  if preservica_website.received_expected_response then
    let any_other_website_received_unexpected_response :=
      rest_of_the_tested_websites.filter fun kw => !kw.2.received_expected_response
    if any_other_website_received_unexpected_response.isEmpty then
      ([], console)
    else
      (rest_of_the_tested_websites, console ++ [timedOutDiagnostic])
  else
    ([(preservica_website.name, preservica_website)], console)

/-- A structured record printed to the console by `print_error_message` or
`print_success_message` (lines 59-79). -/
inductive LogRecord where
  | failure (website : String) (message : String) (expected : String)
      (actual : Option String)
  | success (website : String) (message : String)
  deriving DecidableEq

/-- `print_error_message` (lines 59-69): one `Status: "Failure"` record per
website of the mapping, in order. -/
def print_error_message (websites : List (String × Website)) : List LogRecord :=
  websites.map fun kw =>
    .failure kw.1 "This address is unexpectedly available"
      (strExpected kw.2.expected_response) kw.2.actual_response

/-- `print_success_message` (lines 72-79): a single `Status: "Success"`
record naming the gating website. -/
def print_success_message (preservica_website : Website) : List LogRecord :=
  [.success preservica_website.name
      (preservica_website.name ++ " returned an expected response: "
        ++ strExpected preservica_website.expected_response)]

/-- The reporting tail of `lambda_handler` (lines 117-122): decide via
`get_websites_with_errors`, then print either the failure records or the
single success record. -/
def handle_results (preservica_website : Website)
    (rest_of_the_tested_websites : List (String × Website)) : List LogRecord :=
  let websites_to_log :=
    (get_websites_with_errors preservica_website rest_of_the_tested_websites []).1
  if websites_to_log.isEmpty then
    print_success_message preservica_website
  else
    print_error_message websites_to_log

/-! ## Concrete request capabilities used in witnesses and counterexamples -/

/-- A request capability that always returns the given status. -/
def reqOk (status : Int) : Request := fun _ _ _ _ => .ok status

/-- A request capability that always raises the given exception. -/
def reqErr (e : Exc) : Request := fun _ _ _ _ => .error e

/-! ## C7: the probe executor never raises past its boundary -/

/-- C7: for every url and every injected request capability, `get_response`
never raises: when the request raises an exception `e` the result is the
failure value `HttpResult.exc e`, and when the request completes with status
`s` the result is `HttpResult.status s` regardless of the numeric value. -/
theorem get_response_total_never_raises (request : Request) (url : String) :
    (∃ e, request "GET" url 5 false = .error e ∧
        get_response request url = .exc e) ∨
    (∃ s, request "GET" url 5 false = .ok s ∧
        get_response request url = .status s) := by
  cases h : request "GET" url 5 false with
  | ok s => exact Or.inr ⟨s, rfl, by simp [get_response, h]⟩
  | error e => exact Or.inl ⟨e, rfl, by simp [get_response, h]⟩

/-! ## C8: the notification policy is deterministic -/

/-- C8: calling `get_websites_with_errors` twice on the same reconciled
inputs yields the same reported set both times, even when the second call
starts from the console state the first call left behind: the decision reads
no hidden state. -/
theorem get_websites_with_errors_deterministic (preservica_website : Website)
    (rest : List (String × Website)) (console : List String) :
    (get_websites_with_errors preservica_website rest
        (get_websites_with_errors preservica_website rest console).2).1
      = (get_websites_with_errors preservica_website rest console).1 := by
  unfold get_websites_with_errors
  by_cases h : preservica_website.received_expected_response <;>
    by_cases h2 : (rest.filter fun kw => !kw.2.received_expected_response).isEmpty <;>
    simp [h, h2]

/-! ## C4: a failed gating target is reported alone -/

/-- C4: whenever the gating website's `received_expected_response` is false,
`get_websites_with_errors` returns the singleton mapping holding only the
gating website keyed by its name, whatever the peers' verdicts, and prints
nothing. -/
theorem get_websites_with_errors_gating_failed (preservica_website : Website)
    (rest : List (String × Website)) (console : List String)
    (h : preservica_website.received_expected_response = false) :
    get_websites_with_errors preservica_website rest console
      = ([(preservica_website.name, preservica_website)], console) := by
  simp [get_websites_with_errors, h]

/-- Witness for C4 at a concrete input: a gating website with verdict false
and a peer mapping whose single peer passed. -/
theorem get_websites_with_errors_gating_failed_witness :
    (Website.mk "Preservica" "https://p.example" (.excVal (.connectTimeoutError ""))
        false (some "200")).received_expected_response = false ∧
    get_websites_with_errors
        (Website.mk "Preservica" "https://p.example" (.excVal (.connectTimeoutError ""))
          false (some "200"))
        [("website2", Website.mk "website2" "https://w2.example" (.intVal 200) true (some "200"))]
        []
      = ([("Preservica",
            Website.mk "Preservica" "https://p.example" (.excVal (.connectTimeoutError ""))
              false (some "200"))], []) :=
  ⟨rfl,
    get_websites_with_errors_gating_failed
      (Website.mk "Preservica" "https://p.example" (.excVal (.connectTimeoutError ""))
        false (some "200"))
      [("website2", Website.mk "website2" "https://w2.example" (.intVal 200) true (some "200"))]
      [] rfl⟩

/-! ## C2: when some peer fails, the code reports every peer -/

/-- C2 (failing input): the gating website matched its expectation, peer
`website2` failed its expectation and peer `website3` matched.  The source
returns the whole peer mapping, so the matched peer `website3` is included in
the reported set, contradicting the claim that exactly the failing peers are
returned.  The repository's own test is named
`test_get_websites_with_errors_should_return_1_other_website_with_errors`. -/
theorem get_websites_with_errors_returns_all_peers :
    (get_websites_with_errors
        (Website.mk "Preservica" "https://p.example" (.excVal (.connectTimeoutError ""))
          true (some ""))
        [("website2", Website.mk "website2" "https://w2.example" (.intVal 200) false (some "500")),
         ("website3", Website.mk "website3" "https://w3.example" (.intVal 200) true (some "200"))]
        []).1
      = [("website2", Website.mk "website2" "https://w2.example" (.intVal 200) false (some "500")),
         ("website3", Website.mk "website3" "https://w3.example" (.intVal 200) true (some "200"))]
    ∧ (Website.mk "website3" "https://w3.example" (.intVal 200) true
        (some "200")).received_expected_response = true := by
  exact ⟨rfl, rfl⟩

/-! ## C1: reconciliation of an `ExpectedFailure` target -/

/-- A sample gating website expecting a `ConnectTimeoutError`. -/
def preservicaSample : Website :=
  Website.mk "Preservica" "https://p.example" (.excVal (.connectTimeoutError "")) false none

/-- C1 (counterexample): the probe outcome is a transport `Failure` — an
`InterruptedError`, not a `ConnectTimeoutError` — yet reconciliation of a
website expecting `ConnectTimeoutError` sets `received_expected_response`
to `false`: not every failure reason counts as a match. -/
theorem reconcile_other_failure_not_matched :
    (∃ e, get_response (reqErr (.otherError "InterruptedError" "boom"))
        preservicaSample.url = .exc e) ∧
    reconcile (reqErr (.otherError "InterruptedError" "boom")) preservicaSample
      = .ok { preservicaSample with
                received_expected_response := false,
                actual_response := some "boom" } :=
  ⟨⟨.otherError "InterruptedError" "boom", rfl⟩, rfl⟩

/-- C1 (amended): for a website whose `expected_response` is a
`ConnectTimeoutError` instance, reconciliation sets
`received_expected_response` to true iff the probe outcome is a failure of
class exactly `ConnectTimeoutError`; on a successful probe the verdict is
false and `actual_response` is the decimal string of the status code; on any
other failure the verdict is also false and `actual_response` is the string
rendering of that failure. -/
theorem reconcile_expected_failure_matches_timeout_only
    (request : Request) (website : Website) (m : String)
    (h : website.expected_response = .excVal (.connectTimeoutError m)) :
    ∃ w', reconcile request website = .ok w' ∧
      (w'.received_expected_response = true ↔
        ∃ m', get_response request website.url = .exc (.connectTimeoutError m')) ∧
      (∀ s, get_response request website.url = .status s →
        w'.received_expected_response = false ∧ w'.actual_response = some (toString s)) ∧
      (∀ cls msg, get_response request website.url = .exc (.otherError cls msg) →
        w'.received_expected_response = false ∧ w'.actual_response = some msg) := by
  rcases hr : get_response request website.url with s | e
  · refine ⟨{ website with
        received_expected_response := false,
        actual_response := some (toString s) }, ?_, ?_, ?_, ?_⟩
    · simp [reconcile, h, hr, strHttpResult]
    · simp [hr]
    · intro s' hs'
      cases hs'
      exact ⟨rfl, rfl⟩
    · intro cls msg hmsg
      cases hmsg
  · rcases e with m' | ⟨cls, msg⟩
    · refine ⟨{ website with
          received_expected_response := true,
          actual_response := some (excStr (Exc.connectTimeoutError m)) }, ?_, ?_, ?_, ?_⟩
      · simp [reconcile, h, hr, strExpected]
      · simp [hr]
      · intro s hs
        cases hs
      · intro cls msg hmsg
        cases hmsg
    · refine ⟨{ website with
          received_expected_response := false,
          actual_response := some (excStr (Exc.otherError cls msg)) }, ?_, ?_, ?_, ?_⟩
      · simp [reconcile, h, hr, strHttpResult]
      · simp [hr]
      · intro s hs
        cases hs
      · intro cls' msg' hmsg
        cases hmsg
        exact ⟨rfl, rfl⟩

/-- Witness for the amended C1 at a concrete input: the probe raises a
`ConnectTimeoutError`, so the verdict is true. -/
theorem reconcile_expected_failure_matches_timeout_only_witness :
    preservicaSample.expected_response = .excVal (.connectTimeoutError "") ∧
    (∃ w', reconcile (reqErr (.connectTimeoutError "t")) preservicaSample = .ok w' ∧
      (w'.received_expected_response = true ↔
        ∃ m', get_response (reqErr (.connectTimeoutError "t")) preservicaSample.url
          = .exc (.connectTimeoutError m')) ∧
      (∀ s, get_response (reqErr (.connectTimeoutError "t")) preservicaSample.url
          = .status s →
        w'.received_expected_response = false ∧ w'.actual_response = some (toString s)) ∧
      (∀ cls msg, get_response (reqErr (.connectTimeoutError "t")) preservicaSample.url
          = .exc (.otherError cls msg) →
        w'.received_expected_response = false ∧ w'.actual_response = some msg)) :=
  ⟨rfl, reconcile_expected_failure_matches_timeout_only
    (reqErr (.connectTimeoutError "t")) preservicaSample "" rfl⟩

/-! ## C6: reconciliation of an `ExpectedStatus` target -/

/-- C6: for a website whose `expected_response` is the integer `c`,
reconciliation sets `received_expected_response` to true iff the probe
succeeded with status exactly `c`; `actual_response` is the decimal string
of the status code when the probe succeeds and the string rendering of the
failure when it fails (in which case the verdict is false). -/
theorem reconcile_expected_status (request : Request) (website : Website) (c : Int)
    (h : website.expected_response = .intVal c) :
    ∃ w', reconcile request website = .ok w' ∧
      (w'.received_expected_response = true ↔
        get_response request website.url = .status c) ∧
      (∀ s, get_response request website.url = .status s →
        w'.actual_response = some (toString s)) ∧
      (∀ e, get_response request website.url = .exc e →
        w'.received_expected_response = false ∧ w'.actual_response = some (excStr e)) := by
  refine ⟨{ website with
      received_expected_response :=
        httpStatusEq (get_response request website.url) website.expected_response,
      actual_response := some (strHttpResult (get_response request website.url)) },
    by simp [reconcile, h], ?_, ?_, ?_⟩
  · rcases hr : get_response request website.url with s | e
    · simp [hr, h, httpStatusEq]
    · simp [hr, h, httpStatusEq]
  · intro s hs
    simp [hs, strHttpResult]
  · intro e he
    simp [he, h, httpStatusEq, strHttpResult]

/-- Witness for C6 at a concrete input: a website expecting status 200
probed with a capability returning 200. -/
theorem reconcile_expected_status_witness :
    (Website.mk "website2" "https://w2.example" (.intVal 200) false none).expected_response
      = .intVal 200 ∧
    (∃ w', reconcile (reqOk 200)
        (Website.mk "website2" "https://w2.example" (.intVal 200) false none) = .ok w' ∧
      (w'.received_expected_response = true ↔
        get_response (reqOk 200)
          (Website.mk "website2" "https://w2.example" (.intVal 200) false none).url
          = .status 200) ∧
      (∀ s, get_response (reqOk 200)
          (Website.mk "website2" "https://w2.example" (.intVal 200) false none).url
          = .status s → w'.actual_response = some (toString s)) ∧
      (∀ e, get_response (reqOk 200)
          (Website.mk "website2" "https://w2.example" (.intVal 200) false none).url
          = .exc e →
        w'.received_expected_response = false ∧ w'.actual_response = some (excStr e))) :=
  ⟨rfl, reconcile_expected_status (reqOk 200)
    (Website.mk "website2" "https://w2.example" (.intVal 200) false none) 200 rfl⟩

/-! ## C10: a matched expected failure renders the expectation, not the
observation -/

/-- C10: when the website expects a `ConnectTimeoutError` with message `m`
and the probe fails with a `ConnectTimeoutError` whose message is `m'`,
reconciliation sets `actual_response` to `some m` — the string rendering of
the website's own `expected_response` — independent of the observed message
`m'`. -/
theorem reconcile_matched_timeout_renders_expectation
    (request : Request) (website : Website) (m m' : String)
    (h : website.expected_response = .excVal (.connectTimeoutError m))
    (hr : get_response request website.url = .exc (.connectTimeoutError m')) :
    reconcile request website
      = .ok { website with
                received_expected_response := true,
                actual_response := some m } := by
  simp [reconcile, h, hr, strExpected, excStr]

/-- Witness for C10 at a concrete input: the observed message "observed"
does not appear; the expectation's message "expected" does. -/
theorem reconcile_matched_timeout_renders_expectation_witness :
    (Website.mk "Preservica" "https://p.example"
        (.excVal (.connectTimeoutError "expected")) false none).expected_response
      = .excVal (.connectTimeoutError "expected") ∧
    get_response (reqErr (.connectTimeoutError "observed"))
        (Website.mk "Preservica" "https://p.example"
          (.excVal (.connectTimeoutError "expected")) false none).url
      = .exc (.connectTimeoutError "observed") ∧
    reconcile (reqErr (.connectTimeoutError "observed"))
        (Website.mk "Preservica" "https://p.example"
          (.excVal (.connectTimeoutError "expected")) false none)
      = .ok { Website.mk "Preservica" "https://p.example"
                (.excVal (.connectTimeoutError "expected")) false none with
                received_expected_response := true,
                actual_response := some "expected" } :=
  ⟨rfl, rfl,
    reconcile_matched_timeout_renders_expectation
      (reqErr (.connectTimeoutError "observed"))
      (Website.mk "Preservica" "https://p.example"
        (.excVal (.connectTimeoutError "expected")) false none)
      "expected" "observed" rfl rfl⟩

/-! ## Helper lemmas about one reconciliation step -/

/-- A recognised expectation reconciles successfully and the reconciled
website keeps its `name`, `url` and `expected_response`. -/
theorem reconcile_ok_of_recognised (request : Request) (website : Website)
    (h : recognised website.expected_response = true) :
    ∃ w', reconcile request website = .ok w' ∧ w'.name = website.name ∧
      w'.url = website.url ∧ w'.expected_response = website.expected_response := by
  rcases he : website.expected_response with n | e | r
  · refine ⟨{ website with
        received_expected_response :=
          httpStatusEq (get_response request website.url) website.expected_response,
        actual_response := some (strHttpResult (get_response request website.url)) },
      ?_, rfl, rfl, he⟩
    simp [reconcile, he]
  · rcases e with m | ⟨cls, msg⟩
    · rcases hr : get_response request website.url with s | e'
      · refine ⟨{ website with
            received_expected_response := false,
            actual_response := some (strHttpResult (get_response request website.url)) },
          ?_, rfl, rfl, he⟩
        simp [reconcile, he, hr]
      · rcases e' with m' | ⟨cls', msg'⟩
        · refine ⟨{ website with
              received_expected_response := true,
              actual_response := some (strExpected website.expected_response) },
            ?_, rfl, rfl, he⟩
          simp [reconcile, he, hr]
        · refine ⟨{ website with
              received_expected_response := false,
              actual_response := some (strHttpResult (get_response request website.url)) },
            ?_, rfl, rfl, he⟩
          simp [reconcile, he, hr]
    · rw [he] at h
      simp [recognised] at h
  · rw [he] at h
    simp [recognised] at h

/-- An unrecognised expectation makes the reconciliation step raise the
`ValueError`. -/
theorem reconcile_error_of_unrecognised (request : Request) (website : Website)
    (h : recognised website.expected_response = false) :
    reconcile request website
      = .error ("Unrecognised expected_response: " ++ strExpected website.expected_response) := by
  rcases he : website.expected_response with n | e | r
  · rw [he] at h
    simp [recognised] at h
  · rcases e with m | ⟨cls, msg⟩
    · rw [he] at h
      simp [recognised] at h
    · simp [reconcile, he]
  · simp [reconcile, he]

/-! ## C9: `verify_responses` preserves keys and the untouched fields -/

/-- C9: when every expectation in the mapping is of a recognised kind,
`verify_responses` raises nothing and returns a mapping with the same keys
in the same order, each website keeping its `name`, `url` and
`expected_response`: only `received_expected_response` and
`actual_response` are mutated. -/
theorem verify_responses_frame (request : Request) (l : List (String × Website))
    (h : ∀ kw ∈ l, recognised kw.2.expected_response = true) :
    (verify_responses request l).2 = none ∧
    (verify_responses request l).1.map
        (fun kw => (kw.1, kw.2.name, kw.2.url, kw.2.expected_response))
      = l.map (fun kw => (kw.1, kw.2.name, kw.2.url, kw.2.expected_response)) := by
  induction l with
  | nil => exact ⟨rfl, rfl⟩
  | cons hd tl ih =>
      obtain ⟨w', hok, hname, hurl, hexp⟩ :=
        reconcile_ok_of_recognised request hd.2 (h hd (by simp))
      have htl := ih fun kw hm => h kw (by simp [hm])
      rcases hd with ⟨k₀, w₀⟩
      simp only [verify_responses, hok]
      exact ⟨htl.1, by simp [hname, hurl, hexp, htl.2]⟩

/-- Witness for C9 at a concrete input: a two-website mapping, both
expectations recognised, probed with a capability returning 200. -/
theorem verify_responses_frame_witness :
    (∀ kw ∈ [("Preservica", Website.mk "Preservica" "https://p.example"
          (.excVal (.connectTimeoutError "")) false none),
        ("website2", Website.mk "website2" "https://w2.example" (.intVal 200) false none)],
      recognised kw.2.expected_response = true) ∧
    ((verify_responses (reqOk 200)
        [("Preservica", Website.mk "Preservica" "https://p.example"
            (.excVal (.connectTimeoutError "")) false none),
         ("website2", Website.mk "website2" "https://w2.example" (.intVal 200) false none)]).2
      = none ∧
    (verify_responses (reqOk 200)
        [("Preservica", Website.mk "Preservica" "https://p.example"
            (.excVal (.connectTimeoutError "")) false none),
         ("website2", Website.mk "website2" "https://w2.example" (.intVal 200) false none)]).1.map
        (fun kw => (kw.1, kw.2.name, kw.2.url, kw.2.expected_response))
      = [("Preservica", Website.mk "Preservica" "https://p.example"
            (.excVal (.connectTimeoutError "")) false none),
         ("website2", Website.mk "website2" "https://w2.example" (.intVal 200) false none)].map
        (fun kw => (kw.1, kw.2.name, kw.2.url, kw.2.expected_response))) :=
  ⟨by decide, verify_responses_frame (reqOk 200) _ (by decide)⟩

/-! ## C3: an unrecognised expectation aborts the run, but earlier targets
stay mutated -/

/-- C3 (counterexample): a mapping whose first website has the recognised
expectation `200` and whose second has the unrecognised float `42.0`.
`verify_responses` raises the `ValueError`, but the returned state of the
mapping differs from the input: the first website was already mutated before
the error, so the run does not leave every target unmutated. -/
theorem verify_responses_partial_mutation_before_error :
    (verify_responses (reqOk 200)
        [("website2", Website.mk "website2" "https://w2.example" (.intVal 200) false none),
         ("bad", Website.mk "bad" "https://bad.example" (.otherVal "42.0") false none)]).2
      = some "Unrecognised expected_response: 42.0" ∧
    (verify_responses (reqOk 200)
        [("website2", Website.mk "website2" "https://w2.example" (.intVal 200) false none),
         ("bad", Website.mk "bad" "https://bad.example" (.otherVal "42.0") false none)]).1
      ≠ [("website2", Website.mk "website2" "https://w2.example" (.intVal 200) false none),
         ("bad", Website.mk "bad" "https://bad.example" (.otherVal "42.0") false none)] :=
  ⟨rfl, by decide⟩

/-- C3 (amended): when the mapping splits as `l₁ ++ (k, w) :: l₂` with every
expectation of `l₁` recognised and `w`'s expectation unrecognised,
`verify_responses` raises `ValueError("Unrecognised expected_response: …")`
for the whole run and returns no reconciled mapping, but the final state of
the mapping shows the targets before the invalid one already reconciled
(mutated in place) while the invalid target and all later ones are
unchanged. -/
theorem verify_responses_unrecognised_aborts (request : Request)
    (l₁ l₂ : List (String × Website)) (k : String) (w : Website)
    (h₁ : ∀ kw ∈ l₁, recognised kw.2.expected_response = true)
    (h₂ : recognised w.expected_response = false) :
    verify_responses request (l₁ ++ (k, w) :: l₂)
      = ((verify_responses request l₁).1 ++ (k, w) :: l₂,
         some ("Unrecognised expected_response: " ++ strExpected w.expected_response)) := by
  induction l₁ with
  | nil =>
      have hu := reconcile_error_of_unrecognised request w h₂
      simp [verify_responses, hu]
  | cons hd tl ih =>
      obtain ⟨w', hok, -, -, -⟩ :=
        reconcile_ok_of_recognised request hd.2 (h₁ hd (by simp))
      have htl := ih fun kw hm => h₁ kw (by simp [hm])
      rcases hd with ⟨k₀, w₀⟩
      simp [verify_responses, hok, htl]

/-- Witness for the amended C3 at a concrete input: the valid `website2`
entry precedes the invalid `bad` entry and is reconciled before the raise. -/
theorem verify_responses_unrecognised_aborts_witness :
    (∀ kw ∈ [("website2", Website.mk "website2" "https://w2.example" (.intVal 200) false none)],
      recognised kw.2.expected_response = true) ∧
    recognised (Website.mk "bad" "https://bad.example" (.otherVal "42.0")
        false none).expected_response = false ∧
    verify_responses (reqOk 200)
        ([("website2", Website.mk "website2" "https://w2.example" (.intVal 200) false none)]
          ++ [("bad", Website.mk "bad" "https://bad.example" (.otherVal "42.0") false none)])
      = ((verify_responses (reqOk 200)
            [("website2", Website.mk "website2" "https://w2.example" (.intVal 200) false none)]).1
          ++ [("bad", Website.mk "bad" "https://bad.example" (.otherVal "42.0") false none)],
         some ("Unrecognised expected_response: "
            ++ strExpected (Website.mk "bad" "https://bad.example" (.otherVal "42.0")
                false none).expected_response)) :=
  ⟨by decide, rfl,
    verify_responses_unrecognised_aborts (reqOk 200)
      [("website2", Website.mk "website2" "https://w2.example" (.intVal 200) false none)] []
      "bad" (Website.mk "bad" "https://bad.example" (.otherVal "42.0") false none)
      (by decide) rfl⟩

/-! ## C5: all verdicts true — empty report and a single success record -/

/-- C5: when the gating website matched its expectation and every peer
matched its own, the notification policy returns the empty mapping, and the
console reporting step emits exactly one `Success` record naming the gating
website and no `Failure` record. -/
theorem handle_results_all_matched (preservica_website : Website)
    (rest : List (String × Website)) (console : List String)
    (hg : preservica_website.received_expected_response = true)
    (hp : ∀ kw ∈ rest, kw.2.received_expected_response = true) :
    (get_websites_with_errors preservica_website rest console).1 = [] ∧
    handle_results preservica_website rest
      = [.success preservica_website.name
          (preservica_website.name ++ " returned an expected response: "
            ++ strExpected preservica_website.expected_response)] := by
  have hfilter : rest.filter (fun kw => !kw.2.received_expected_response) = [] := by
    rw [List.filter_eq_nil_iff]
    intro kw hm
    simp [hp kw hm]
  constructor
  · simp [get_websites_with_errors, hg, hfilter]
  · simp [handle_results, get_websites_with_errors, hg, hfilter, print_success_message]

/-- Witness for C5 at a concrete input: gating website matched, its single
peer matched. -/
theorem handle_results_all_matched_witness :
    (Website.mk "Preservica" "https://p.example" (.excVal (.connectTimeoutError ""))
        true (some "")).received_expected_response = true ∧
    (∀ kw ∈ [("website2", Website.mk "website2" "https://w2.example" (.intVal 200)
        true (some "200"))], kw.2.received_expected_response = true) ∧
    ((get_websites_with_errors
        (Website.mk "Preservica" "https://p.example" (.excVal (.connectTimeoutError ""))
          true (some ""))
        [("website2", Website.mk "website2" "https://w2.example" (.intVal 200)
          true (some "200"))] []).1 = [] ∧
    handle_results
        (Website.mk "Preservica" "https://p.example" (.excVal (.connectTimeoutError ""))
          true (some ""))
        [("website2", Website.mk "website2" "https://w2.example" (.intVal 200)
          true (some "200"))]
      = [.success "Preservica" ("Preservica" ++ " returned an expected response: "
          ++ strExpected (ExpectedResponse.excVal (.connectTimeoutError "")))]) :=
  ⟨rfl, by decide,
    handle_results_all_matched
      (Website.mk "Preservica" "https://p.example" (.excVal (.connectTimeoutError ""))
        true (some ""))
      [("website2", Website.mk "website2" "https://w2.example" (.intVal 200)
        true (some "200"))] [] rfl (by decide)⟩

end IpLockChecker
